import Mathlib

/-!
Verification development for the napari-rembg widget
(`src/napari_rembg/_widget.py`).

Arrays are embedded as functions from index vectors (`List Nat`) to values;
2D masks and segmentations as `Nat → Nat → Nat` (or `Nat → Nat → Bool`).
The external predictor (`rembg_predict`), and napari's `Shapes.to_labels`
rasterizer, are opaque parameters of the model; everything else follows the
widget source line by line.
-/

namespace NapariRembg

/-- Semantics of `numpy.transpose` on a 3D array viewed as an index function:
`(A.transpose p)[i0, i1, i2] = A[v]` where `v[p[k]] = i_k`, that is,
argument `m` of `A` is the component of the index at the position of `m`
inside `p`. -/
def transpose3L {α : Type} (p : List Nat) (A : List Nat → α) : List Nat → α :=
  fun idx => A ((List.range 3).map fun m => idx.getD (p.indexOf m) 0)

/-- Indexing an array along axis 0 at step `s` (numpy `B[s]`). -/
def index0 {α : Type} (B : List Nat → α) (s : Nat) : List Nat → α :=
  fun idx => B (s :: idx)

/-- Semantics of numpy fancy indexing `np.array(v)[idxs]`. -/
def fancyIndex (v : List Nat) (idxs : List Nat) : List Nat :=
  idxs.map fun i => v.getD i 0

/-- A shapes (ROI) layer: the per-shape type strings (`shape_type`), and the
rasterization returned by napari's external `to_labels()` together with its
array shape.  `to_labels` itself is not part of this repository, so it is
carried as an opaque function. -/
structure ShapesInfo where
  shape_type : List String
  toLabels : List Nat → Nat
  toLabelsShape : List Nat

/-- Number of shapes in the layer (napari's `nshapes`). -/
def ShapesInfo.nshapes (s : ShapesInfo) : Nat := s.shape_type.length

/-- The widget-visible viewer state in the 2D-rendering mode: the selected
image layer's data and shape, its RGB flag, the viewer's displayed dimension
indices, the full current-step vector, and the optionally selected shapes
layer. -/
structure WidgetState (α : Type) where
  imageData : List Nat → α
  imageShape : List Nat
  rgb : Bool
  dimsDisplayed : List Nat
  currentStepVec : List Nat
  shapesInfo : Option ShapesInfo

/-- `RemBGWidget.ndim`: 2 for an RGB image, else the data's ndim. -/
def WidgetState.ndim {α : Type} (st : WidgetState α) : Nat :=
  if st.rgb then 2 else st.imageShape.length

/-- The axes reordering computed by `RemBGWidget.axes` for a 3D image: the
displayed dimensions with the missing (depth) dimension inserted at
position 0 (`list(set([0,1,2]) - set(displayed))[0]`). -/
def axesOfDisplayed (displayed : List Nat) : List Nat :=
  (([0, 1, 2].filter fun m => ! displayed.contains m).headD 0) :: displayed

/-- `RemBGWidget.axes` (in the 2D-rendering mode): insert the depth axis at
position 0 when the image is 3D, otherwise the displayed dims unchanged. -/
def WidgetState.axes {α : Type} (st : WidgetState α) : List Nat :=
  if st.ndim = 3 then axesOfDisplayed st.dimsDisplayed else st.dimsDisplayed

/-- `RemBGWidget.current_step`: `np.array(viewer.dims.current_step)[axes][0]`. -/
def WidgetState.current_step {α : Type} (st : WidgetState α) : Nat :=
  (fancyIndex st.currentStepVec st.axes).getD 0 0

/-- `RemBGWidget.image_data_slice`: the image itself when `ndim == 2`, the
transposed-and-indexed depth slice when `ndim == 3`, nothing otherwise. -/
def WidgetState.image_data_slice {α : Type} (st : WidgetState α) :
    Option (List Nat → α) :=
  if st.ndim = 2 then some st.imageData
  else if st.ndim = 3 then
    some (index0 (transpose3L st.axes st.imageData) st.current_step)
  else none

/-- `RemBGWidget._on_slice_change`: when the selected shapes layer holds
exactly one shape of type rectangle, its data is reset to the empty list
(which also empties the rasterization). -/
def on_slice_change {α : Type} (st : WidgetState α) : WidgetState α :=
  match st.shapesInfo with
  | none => st
  | some s =>
    if s.nshapes = 1 ∧ s.shape_type.getD 0 "" = "rectangle" then
      { st with shapesInfo := some { s with shape_type := [], toLabels := fun _ => 0 } }
    else st

/-- Semantics of numpy slicing `sl[x0:x1, y0:y1]` on the first two axes of an
index-function array (in-bounds positions). -/
def crop2 {α : Type} (sl : List Nat → α) (x0 y0 : Nat) : List Nat → α :=
  fun idx => sl ((x0 + idx.getD 0 0) :: (y0 + idx.getD 1 0) :: idx.drop 2)

/-- `np.zeros(shape[:2])` as a 2D index function. -/
def zeros2 : Nat → Nat → Nat := fun _ _ => 0

/-- Semantics of the numpy slice assignment `A[x0:x1, y0:y1] = B`. -/
def sliceAssign2 (A : Nat → Nat → Nat) (x0 y0 x1 y1 : Nat)
    (B : Nat → Nat → Nat) : Nat → Nat → Nat :=
  fun r c =>
    if x0 ≤ r ∧ r < x1 ∧ y0 ≤ c ∧ c < y1 then B (r - x0) (c - y0) else A r c

/-- Lines 190-193 of the widget: a zero array shaped like the slice, with the
predictor's output on the crop written back into the bounding box. -/
def roi_segmentation (x0 y0 x1 y1 : Nat) (predSeg : Nat → Nat → Nat) :
    Nat → Nat → Nat :=
  sliceAssign2 zeros2 x0 y0 x1 y1 predSeg

/-- Coordinates of the nonzero pixels of a 2D mask of shape `h × w`. -/
def nonzeroCoords (m : Nat → Nat → Nat) (h w : Nat) : List (Nat × Nat) :=
  (List.range h).flatMap fun i =>
    (List.range w).filterMap fun j => if m i j ≠ 0 then some (i, j) else none

/-- Minimal bounding box (row-min, col-min, row-max-exclusive,
col-max-exclusive) of a coordinate list; `none` when the list is empty. -/
def bboxOfCoords (cs : List (Nat × Nat)) : Option (Nat × Nat × Nat × Nat) :=
  match cs with
  | [] => none
  | c :: rest =>
    some ((rest.map Prod.fst).foldr min c.1,
          (rest.map Prod.snd).foldr min c.2,
          ((rest.map Prod.fst).foldr max c.1) + 1,
          ((rest.map Prod.snd).foldr max c.2) + 1)

/-- Semantics of `regionprops_table(mask, properties=['bbox'])` followed by
`bbox['bbox-k'][0]` for a single-region mask: the bounding box of the nonzero
pixels, `none` when there is no region at all (in which case the Python code
raises an `IndexError` on the empty column). -/
def regionprops_bbox (m : Nat → Nat → Nat) (h w : Nat) :
    Option (Nat × Nat × Nat × Nat) :=
  bboxOfCoords (nonzeroCoords m h w)

/-- Semantics of `np.max(B, axis=0)` for a 3D array of depth `d`. -/
def maxProj0 (B : List Nat → Nat) (d : Nat) : Nat → Nat → Nat :=
  fun i j => ((List.range d).map fun k => B [k, i, j]).foldr max 0

/-- `RemBGWidget._remove_background`: the segmentation orchestrator.  The
external predictor (`rembg_predict`, including its PIL round-trip,
channel-mean and thresholding) is an opaque parameter producing a 2D
binary mask from a slice.  `.error ()` models an uncaught Python
exception. -/
def remove_background {α : Type} (st : WidgetState α)
    (predict : (List Nat → α) → Nat → Nat → Nat) :
    Except Unit (Nat → Nat → Nat) :=
  match st.image_data_slice with
  | none => .error ()
  | some sl =>
    match st.shapesInfo with
    | some s =>
      if s.nshapes = 1 ∧ s.shape_type.getD 0 "" = "rectangle"
          ∧ ¬(st.ndim = 3 ∧ st.axes.getD 0 0 ≠ 0) then
        let roiMask : Nat → Nat → Nat :=
          if st.ndim = 3 then
            maxProj0 (transpose3L st.axes s.toLabels)
              (s.toLabelsShape.getD (st.axes.getD 0 0) 0)
          else fun i j => s.toLabels [i, j]
        let mh : Nat :=
          if st.ndim = 3 then s.toLabelsShape.getD (st.axes.getD 1 0) 0
          else s.toLabelsShape.getD 0 0
        let mw : Nat :=
          if st.ndim = 3 then s.toLabelsShape.getD (st.axes.getD 2 0) 0
          else s.toLabelsShape.getD 1 0
        match regionprops_bbox roiMask mh mw with
        | none => .error ()
        | some (x0, y0, x1, y1) =>
          .ok (roi_segmentation x0 y0 x1 y1 (predict (crop2 sl x0 y0)))
      else .ok (predict sl)
    | none => .ok (predict sl)

/-- The 2D masked write `labels[mask] = selected_label`. -/
def applyMask2 (L : List Nat → Int) (mask : Nat → Nat → Bool) (lab : Int) :
    List Nat → Int :=
  fun w => if mask (w.getD 0 0) (w.getD 1 0) = true then lab else L w

/-- The 3D masked write `labels.transpose(axes)[step][mask] = selected_label`:
writing through the transposed view touches the base coordinate `w` exactly
when the transposed index `(w[p[0]], w[p[1]], w[p[2]])` has depth component
equal to `step` and a true mask entry. -/
def applyMask3 (L : List Nat → Int) (p : List Nat) (s : Nat)
    (mask : Nat → Nat → Bool) (lab : Int) : List Nat → Int :=
  fun w =>
    if w.getD (p.getD 0 0) 0 = s
        ∧ mask (w.getD (p.getD 1 0) 0) (w.getD (p.getD 2 0) 0) = true then
      lab
    else L w

/-- Lines 229-232 of `_thread_returned`: the masked write dispatched on the
image dimensionality. -/
def apply_mask (nd : Nat) (L : List Nat → Int) (p : List Nat) (s : Nat)
    (mask : Nat → Nat → Bool) (lab : Int) : List Nat → Int :=
  if nd = 2 then applyMask2 L mask lab
  else if nd = 3 then applyMask3 L p s mask lab
  else L

/-- Shape of `np.mean(A, axis=k)`: the given axis is removed. -/
def npMeanShape (axis : Nat) (sh : List Nat) : List Nat :=
  sh.take axis ++ sh.drop (axis + 1)

/-- Lines 218-225 of `_thread_returned`: the label volume used for the masked
write, as (values, shape).  When no result layer is selected a zero-filled
integer volume is created, shaped like the image, with the channel axis
collapsed through `np.mean(..., axis=2)` when the image is RGB. -/
def thread_returned_labels (resultSelected : Bool)
    (existing : (List Nat → Int) × List Nat) (rgb : Bool)
    (imageShape : List Nat) : (List Nat → Int) × List Nat :=
  if resultSelected = false then
    if rgb = true then ((fun _ => 0), npMeanShape 2 imageShape)
    else ((fun _ => 0), imageShape)
  else existing

/-- The displayed-axes lists a napari viewer can report for a 3D image in the
2D-rendering mode: two distinct dimensions out of {0, 1, 2}. -/
def validDisplayed : List (List Nat) :=
  [[0, 1], [1, 0], [0, 2], [2, 0], [1, 2], [2, 1]]

/-- Spec formulation of the 3D slice extraction: transpose the image by the
axes (the displayed dims with the missing depth dim inserted at position 0)
and index along axis 0 at the step value `full_step_vector[axes][0]`. -/
def extract_slice_3d {α : Type} (A : List Nat → α) (displayed steps : List Nat) :
    List Nat → α :=
  index0 (transpose3L (axesOfDisplayed displayed) A)
    ((fancyIndex steps (axesOfDisplayed displayed)).getD 0 0)

/-- A concrete 3D test image of shape (2, 3, 4) with distinct voxel values. -/
def imgCube : List Nat → Nat :=
  fun idx => 100 * idx.getD 0 0 + 10 * idx.getD 1 0 + idx.getD 2 0

/-- A concrete shapes layer holding one rectangle. -/
def roiRect : ShapesInfo :=
  { shape_type := ["rectangle"]
    toLabels := fun idx => if idx = [1, 1] then 1 else 0
    toLabelsShape := [2, 3, 4] }

/-- A concrete 3D viewer state whose displayed dims [0, 2] put the depth axis
(dimension 1) first in `axes = [1, 0, 2]`, so `axes[0] ≠ 0`. -/
def stTransposed : WidgetState Nat :=
  { imageData := imgCube
    imageShape := [2, 3, 4]
    rgb := false
    dimsDisplayed := [0, 2]
    currentStepVec := [0, 1, 0]
    shapesInfo := some roiRect }

/-- A concrete 2D viewer state. -/
def stFlat : WidgetState Nat :=
  { imageData := fun idx => idx.getD 0 0 + idx.getD 1 0
    imageShape := [4, 5]
    rgb := false
    dimsDisplayed := [0, 1]
    currentStepVec := [0, 0]
    shapesInfo := none }

/-- A concrete 2D viewer state with a one-rectangle ROI layer selected. -/
def stNav2d : WidgetState Nat :=
  { stFlat with shapesInfo := some roiRect }

/-- A concrete 2D state whose one-rectangle ROI rasterizes to an all-zero
mask (e.g. a degenerate rectangle, or one outside the extent). -/
def stEmptyRoi : WidgetState Nat :=
  { imageData := fun _ => 0
    imageShape := [4, 4]
    rgb := false
    dimsDisplayed := [0, 1]
    currentStepVec := [0, 0]
    shapesInfo := some { shape_type := ["rectangle"], toLabels := fun _ => 0,
                         toLabelsShape := [4, 4] } }

/-- Claim C1: for a 3D (non-RGB) image with a single-rectangle ROI selected,
when the reordered axes put the depth axis somewhere other than array axis 0
(`axes[0] ≠ 0`, a transposed view), `_remove_background` silently ignores the
ROI and returns the predictor's output on the whole visible slice, with no
error. -/
theorem roi_ignored_on_transposed_3d {α : Type} (st : WidgetState α)
    (predict : (List Nat → α) → Nat → Nat → Nat) (s : ShapesInfo)
    (hrgb : st.rgb = false) (h3 : st.imageShape.length = 3)
    (hs : st.shapesInfo = some s) (_hn : s.nshapes = 1)
    (_ht : s.shape_type.getD 0 "" = "rectangle")
    (hax : st.axes.getD 0 0 ≠ 0) :
    remove_background st predict
      = .ok (predict (index0 (transpose3L st.axes st.imageData) st.current_step)) := by
  have hnd : st.ndim = 3 := by simp [WidgetState.ndim, hrgb, h3]
  have hsl : st.image_data_slice
      = some (index0 (transpose3L st.axes st.imageData) st.current_step) := by
    simp [WidgetState.image_data_slice, hnd]
  have hcond : ¬(s.nshapes = 1 ∧ s.shape_type.getD 0 "" = "rectangle"
      ∧ ¬(st.ndim = 3 ∧ st.axes.getD 0 0 ≠ 0)) := fun hc => hc.2.2 ⟨hnd, hax⟩
  unfold remove_background
  simp only [hsl, hs, if_neg hcond]

/-- Witness for C1 at the concrete transposed state. -/
theorem roi_ignored_on_transposed_3d_inst :
    remove_background stTransposed (fun _ _ _ => 9)
      = .ok ((fun _ _ _ => 9)
          (index0 (transpose3L stTransposed.axes stTransposed.imageData)
            stTransposed.current_step)) :=
  roi_ignored_on_transposed_3d stTransposed (fun _ _ _ => 9) roiRect rfl rfl rfl rfl rfl
    (by decide)

/-- Claim C2: the ROI branch of the orchestrator leaves every position outside
the bounding box `(x0, y0, x1, y1)` at 0 and equals the predictor's output on
the crop inside the box, for every slice and every predictor. -/
theorem roi_segmentation_crop_property {α : Type} (sl : List Nat → α)
    (predict : (List Nat → α) → Nat → Nat → Nat) (x0 y0 x1 y1 : Nat) :
    (∀ r c, ¬(x0 ≤ r ∧ r < x1 ∧ y0 ≤ c ∧ c < y1) →
        roi_segmentation x0 y0 x1 y1 (predict (crop2 sl x0 y0)) r c = 0)
    ∧ (∀ i j, i < x1 - x0 → j < y1 - y0 →
        roi_segmentation x0 y0 x1 y1 (predict (crop2 sl x0 y0)) (x0 + i) (y0 + j)
          = predict (crop2 sl x0 y0) i j) := by
  constructor
  · intro r c h
    simp only [roi_segmentation, sliceAssign2, zeros2, if_neg h]
  · intro i j hi hj
    have hcond : x0 ≤ x0 + i ∧ x0 + i < x1 ∧ y0 ≤ y0 + j ∧ y0 + j < y1 := by omega
    simp only [roi_segmentation, sliceAssign2, if_pos hcond]
    rw [Nat.add_sub_cancel_left, Nat.add_sub_cancel_left]

/-- Witness for C2 at a concrete bbox, slice and predictor. -/
theorem roi_segmentation_crop_property_inst :
    roi_segmentation 1 1 3 3
        ((fun _ i j => i + j) (crop2 (fun _ : List Nat => (0 : Nat)) 1 1)) 0 0 = 0
    ∧ roi_segmentation 1 1 3 3
        ((fun _ i j => i + j) (crop2 (fun _ : List Nat => (0 : Nat)) 1 1)) (1 + 1) (1 + 0)
      = (fun _ i j => i + j) (crop2 (fun _ : List Nat => (0 : Nat)) 1 1) 1 0 :=
  ⟨(roi_segmentation_crop_property (fun _ => 0) (fun _ i j => i + j) 1 1 3 3).1 0 0
      (by decide),
   (roi_segmentation_crop_property (fun _ => 0) (fun _ i j => i + j) 1 1 3 3).2 1 0
      (by decide) (by decide)⟩

/-- Claim C3: for a non-RGB 3D image, `image_data_slice` equals the image
transposed by `axes` (displayed dims with the depth dim inserted at position
0) indexed along axis 0 at `full_step_vector[axes][0]`. -/
theorem image_data_slice_3d_eq {α : Type} (st : WidgetState α)
    (hrgb : st.rgb = false) (h3 : st.imageShape.length = 3) :
    st.image_data_slice
      = some (extract_slice_3d st.imageData st.dimsDisplayed st.currentStepVec) := by
  have hnd : st.ndim = 3 := by simp [WidgetState.ndim, hrgb, h3]
  simp [WidgetState.image_data_slice, hnd, WidgetState.axes, WidgetState.current_step,
    extract_slice_3d]

/-- Witness for C3 at the concrete transposed 3D state. -/
theorem image_data_slice_3d_eq_inst :
    stTransposed.image_data_slice
      = some (extract_slice_3d stTransposed.imageData stTransposed.dimsDisplayed
          stTransposed.currentStepVec) :=
  image_data_slice_3d_eq stTransposed rfl rfl

/-- Claim C4: for every valid displayed-axes choice, writing through the same
transpose/index used to read the visible slice touches exactly the slice's
coordinates: reading slice `t0` of the transposed volume after the masked
write gives the label at `(step, masked)` positions and the original value
everywhere else. -/
theorem slice_write_round_trip (d : List Nat) (hd : d ∈ validDisplayed)
    (L : List Nat → Int) (s : Nat) (mask : Nat → Nat → Bool) (lab : Int)
    (t0 i j : Nat) :
    index0 (transpose3L (axesOfDisplayed d)
        (applyMask3 L (axesOfDisplayed d) s mask lab)) t0 [i, j]
      = if t0 = s ∧ mask i j = true then lab
        else index0 (transpose3L (axesOfDisplayed d) L) t0 [i, j] := by
  simp only [validDisplayed, List.mem_cons, List.not_mem_nil, or_false] at hd
  rcases hd with rfl | rfl | rfl | rfl | rfl | rfl <;> rfl

/-- Witness for C4 at a transposed displayed-axes choice. -/
theorem slice_write_round_trip_inst :
    index0 (transpose3L (axesOfDisplayed [2, 0])
        (applyMask3 (fun _ => (0 : Int)) (axesOfDisplayed [2, 0]) 1
          (fun i j => i == 0 && j == 0) 5)) 1 [0, 0]
      = if (1 : Nat) = 1 ∧ (fun i j : Nat => i == 0 && j == 0) 0 0 = true then (5 : Int)
        else index0 (transpose3L (axesOfDisplayed [2, 0]) (fun _ => (0 : Int))) 1 [0, 0] :=
  slice_write_round_trip [2, 0] (by decide) (fun _ => 0) 1
    (fun i j => i == 0 && j == 0) 5 1 0 0

/-- Claim C5: the 3D masked write changes no base coordinate whose component
along the depth axis `p[0]` differs from the current step; every other depth
slice of the transposed label volume is untouched. -/
theorem apply_mask_other_slices_unchanged (L : List Nat → Int) (p : List Nat)
    (s : Nat) (mask : Nat → Nat → Bool) (lab : Int) (w : List Nat)
    (hw : w.getD (p.getD 0 0) 0 ≠ s) :
    applyMask3 L p s mask lab w = L w := by
  simp only [applyMask3]
  rw [if_neg]
  intro hc
  exact hw hc.1

/-- Witness for C5 at the spec's scenario: shape (5, 100, 100), displayed
[1, 2] (so axes [0, 1, 2]), step 2, coordinate in slice 3. -/
theorem apply_mask_other_slices_unchanged_inst :
    applyMask3 (fun w => (w.getD 0 0 : Int)) (axesOfDisplayed [1, 2]) 2
        (fun _ _ => true) 9 [3, 5, 7]
      = (fun w => (w.getD 0 0 : Int)) [3, 5, 7] :=
  apply_mask_other_slices_unchanged (fun w => (w.getD 0 0 : Int))
    (axesOfDisplayed [1, 2]) 2 (fun _ _ => true) 9 [3, 5, 7] (by decide)

/-- Claim C6: the masked write of `_thread_returned` is idempotent: applying
the same mask twice with the same label equals applying it once, for every
dimensionality, axes and step. -/
theorem apply_mask_idempotent (nd : Nat) (L : List Nat → Int) (p : List Nat)
    (s : Nat) (mask : Nat → Nat → Bool) (lab : Int) :
    apply_mask nd (apply_mask nd L p s mask lab) p s mask lab
      = apply_mask nd L p s mask lab := by
  unfold apply_mask
  split_ifs
  · funext w
    simp only [applyMask2]
    split_ifs <;> rfl
  · funext w
    simp only [applyMask3]
    split_ifs <;> rfl
  · rfl

/-- Claim C7: when no result layer is selected, `_thread_returned` creates a
zero-filled integer volume shaped like the image, with the channel axis
collapsed via the channel-mean shape when the image is RGB. -/
theorem new_labels_zero_filled (sel : Bool)
    (existing : (List Nat → Int) × List Nat) (rgb : Bool) (ish : List Nat)
    (hsel : sel = false) :
    (∀ w, (thread_returned_labels sel existing rgb ish).1 w = 0)
    ∧ (rgb = false → (thread_returned_labels sel existing rgb ish).2 = ish)
    ∧ (rgb = true → (thread_returned_labels sel existing rgb ish).2 = npMeanShape 2 ish)
    ∧ (rgb = true → ∀ a b c, ish = [a, b, c] →
        (thread_returned_labels sel existing rgb ish).2 = [a, b]) := by
  subst hsel
  refine ⟨?_, ?_, ?_, ?_⟩
  · intro w
    cases rgb <;> rfl
  · intro hr
    subst hr
    rfl
  · intro hr
    subst hr
    rfl
  · intro hr a b c hish
    subst hr
    subst hish
    rfl

/-- Witness for C7 at a concrete RGB shape (10, 20, 3). -/
theorem new_labels_zero_filled_inst :
    (∀ w, (thread_returned_labels false ((fun _ => 3), [7]) true [10, 20, 3]).1 w = 0)
    ∧ (thread_returned_labels false ((fun _ => 3), [7]) true [10, 20, 3]).2 = [10, 20] := by
  have h := new_labels_zero_filled false ((fun _ => 3), [7]) true [10, 20, 3] rfl
  exact ⟨h.1, h.2.2.2 rfl 10 20 3 rfl⟩

/-- Claim C8: for a 2D image, and for an RGB image treated as 2D, the slice
extractor returns the image data itself, unchanged. -/
theorem image_data_slice_2d_id {α : Type} (st : WidgetState α)
    (h : st.rgb = true ∨ st.imageShape.length = 2) :
    st.image_data_slice = some st.imageData := by
  have hnd : st.ndim = 2 := by
    rcases h with h | h <;> simp [WidgetState.ndim, h]
  simp [WidgetState.image_data_slice, hnd]

/-- Witness for C8 at the concrete 2D state. -/
theorem image_data_slice_2d_id_inst :
    stFlat.image_data_slice = some stFlat.imageData :=
  image_data_slice_2d_id stFlat (Or.inr rfl)

/-- Claim C9: on a current-step change, a selected shapes layer holding
exactly one rectangle is cleared, whatever the image dimensionality — the
handler never consults it. -/
theorem slice_change_clears_rectangle {α : Type} (st : WidgetState α)
    (s : ShapesInfo) (hs : st.shapesInfo = some s) (hn : s.nshapes = 1)
    (ht : s.shape_type.getD 0 "" = "rectangle") :
    (on_slice_change st).shapesInfo
      = some { s with shape_type := [], toLabels := fun _ => 0 } := by
  unfold on_slice_change
  simp only [hs, if_pos (And.intro hn ht)]

/-- Witness for C9 at a plain 2D state: the rectangle is cleared during 2D
navigation as well. -/
theorem slice_change_clears_rectangle_inst :
    (on_slice_change stNav2d).shapesInfo
      = some { roiRect with shape_type := [], toLabels := fun _ => 0 } :=
  slice_change_clears_rectangle stNav2d roiRect rfl rfl rfl

/-- Claim C10: a single-rectangle ROI whose rasterized mask has no nonzero
pixel makes the bounding-box extraction index into an empty
region-properties column: `_remove_background` raises instead of declining
or falling back to the whole slice. -/
theorem empty_roi_mask_error :
    remove_background stEmptyRoi (fun _ _ _ => 1) = .error () := rfl

end NapariRembg
